import Mathlib

/-!
Shallow embedding of the tri-state Maybe container of the Go package
`maybe` (repository lw-project-fp-go) and proofs of the specified
properties.

The container has three concrete variants: Some (a present value),
None (deliberate absence) and Failure (an error state).  Every
operation that runs a caller-supplied callback does so through the
panic-recovery helper Do; a callback in the embedding is therefore a
function into `Comp R`, which is either a normal result or a panic
carrying a payload.  Go errors are nilable, so an error-typed field or
argument is embedded as `Option Err`.
-/

namespace maybe

/-- An error value as produced by errors.New: it carries its message. -/
structure Err where
  msg : String
deriving DecidableEq, Repr

/-- A Go error-typed value: nil (Option.none) or an actual error. -/
abbrev GoError := Option Err

/-- The payload of a runtime panic: either a value that implements the
error interface, or any other value together with its fmt.Sprint
display text. -/
inductive PanicVal where
  | errVal (e : Err)
  | other (display : String)
deriving DecidableEq, Repr

/-- The outcome of running a piece of Go code that may panic: a normal
result, or a propagating panic. -/
inductive Comp (A : Type) where
  | ok (a : A)
  | panics (p : PanicVal)
deriving DecidableEq, Repr

/-- Sequencing of a possibly-panicking computation with a pure
continuation: a panic in the first step propagates. -/
def Comp.map {A B : Type} (f : A → B) : Comp A → Comp B
  | .ok a => .ok (f a)
  | .panics p => .panics p

/-- The Maybe container (maybe.go): exactly one of Some{v}, None{},
Failure{e}.  The Failure field is a Go error, hence possibly nil. -/
inductive Maybe (T : Type) where
  | some (v : T)
  | none
  | failure (e : GoError)
deriving DecidableEq, Repr

/-- Just (constructor.go): wraps a value in Some. -/
def Just {T : Type} (v : T) : Maybe T := Maybe.some v

/-- EmptyM embeds Empty (constructor.go): the None container.  The Go
name Empty collides with the core Lean type of that name. -/
def EmptyM (T : Type) : Maybe T := Maybe.none

/-- Failed (constructor.go): wraps a (possibly nil) error in Failure. -/
def Failed {T : Type} (e : GoError) : Maybe T := Maybe.failure e

/-- The error synthesised by the recover branch of Do (helper.go
125-137): a payload that already is an error is used as is; any other
payload r becomes errors.New(fmt.Sprint(r)). -/
def recoverAsErr : PanicVal → Err
  | .errVal e => e
  | .other s => { msg := s }

/-- Do (helper.go 125-137): run the given computation; on normal
completion return its container; on panic return Failure wrapping the
recovered error. -/
def Do {T : Type} (fn : Comp (Maybe T)) : Maybe T :=
  match fn with
  | .ok m => m
  | .panics p => Failed (Option.some (recoverAsErr p))

/-- ToMaybe (helper.go 38-43): a non-nil error yields Failed carrying
it, otherwise Just of the value. -/
def ToMaybe {T : Type} (v : T) (err : GoError) : Maybe T :=
  match err with
  | Option.some _ => Failed err
  | Option.none => Just v

/-- Try (helper.go 103-107): run fn under Do and convert its
(value, error) pair through ToMaybe. -/
def Try {T : Type} (fn : Comp (T × GoError)) : Maybe T :=
  Do (fn.map (fun ve => ToMaybe ve.1 ve.2))

namespace Some

/-- Some.Map (some.go / unnamed part_008 21-25): apply fn to the held
value under Do and wrap the result with Just. -/
def Map {T : Type} (v : T) (fn : T → Comp T) : Maybe T :=
  Do ((fn v).map Just)

/-- Some.FlatMap (unnamed part_008 72-76): apply fn under Do and
return the container it produces, without re-wrapping. -/
def FlatMap {T : Type} (v : T) (fn : T → Comp (Maybe T)) : Maybe T :=
  Do (fn v)

/-- Some.Filter (some.go 50-57): apply fn under Do; true keeps the
container unchanged, false yields None. -/
def Filter {T : Type} (v : T) (fn : T → Comp Bool) : Maybe T :=
  Do ((fn v).map (fun b => if b then Maybe.some v else Maybe.none))

/-- Some.Then (some.go 66-71): run fn on the held value under Do for
its side effect and return the container unchanged. -/
def Then {T : Type} (v : T) (fn : T → Comp Unit) : Maybe T :=
  Do ((fn v).map (fun _ => Maybe.some v))

/-- Some.MatchThen (some.go 129-134): run someFn on the held value
under Do, then return self.  The other two callbacks are unused. -/
def MatchThen {T : Type} (v : T) (someFn : T → Comp Unit)
    (noneFn : Comp Unit) (failureFn : GoError → Comp Unit) : Maybe T :=
  Do ((someFn v).map (fun _ => Maybe.some v))

/-- Some.MapIfEmpty (unnamed part_008 36-38): returns self unchanged,
fn is never called. -/
def MapIfEmpty {T : Type} (v : T) (fn : Comp (T × GoError)) : Maybe T :=
  Maybe.some v

/-- Some.MapIfFailed (unnamed part_008 49-51): returns self unchanged,
fn is never called. -/
def MapIfFailed {T : Type} (v : T)
    (fn : GoError → Comp (T × GoError)) : Maybe T :=
  Maybe.some v

/-- Some.GetPair (some.go 79-81): the held value and nil error. -/
def GetPair {T : Type} (v : T) : T × GoError := (v, Option.none)

/-- Some.Get (unnamed part_008 115-117): value, presence flag true,
nil error. -/
def Get {T : Type} (v : T) : T × Bool × GoError :=
  (v, true, Option.none)

/-- Some.OrElseGet (some.go 92-94): returns the held value, fn is
never called, so the call can not panic. -/
def OrElseGet {T : Type} (v : T) (fn : GoError → Comp T) : Comp T :=
  Comp.ok v

/-- Some.OrElseDefault (some.go 103-105): returns the held value. -/
def OrElseDefault {T : Type} (v d : T) : T := v

end Some

namespace None

/-- None.Map (none.go 134-136, type-preserving version): returns self,
fn is never called. -/
def Map {T : Type} (fn : T → Comp T) : Maybe T := Maybe.none

/-- None.FlatMap (none.go 148-150): returns self, fn is never
called. -/
def FlatMap {T : Type} (fn : T → Comp (Maybe T)) : Maybe T := Maybe.none

/-- None.Filter (none.go 159-161): returns self, fn is never called. -/
def Filter {T : Type} (fn : T → Comp Bool) : Maybe T := Maybe.none

/-- None.Then (none.go 170-172): returns self, fn is never called. -/
def Then {T : Type} (fn : T → Comp Unit) : Maybe T := Maybe.none

/-- None.GetPair (none.go 180-183): zero value and nil error. -/
def GetPair (T : Type) [Inhabited T] : T × GoError :=
  ((default : T), Option.none)

/-- Modelled from the spec: the None variant of the three-value
extraction Get() (T, bool, error).  The implementation file of this
latest revision of none.go is missing from the sources; the README
(unnamed part_004) declares the signature and the spec states
Absent.extract() = (zero-value, presentFlag=false, error=none). -/
def Get (T : Type) [Inhabited T] : T × Bool × GoError :=
  ((default : T), false, Option.none)

/-- None.OrElseGet (none.go 193-195): calls fn with a nil error and
returns its result directly, with no panic recovery around it. -/
def OrElseGet {T : Type} (fn : GoError → Comp T) : Comp T :=
  fn Option.none

/-- None.OrElseDefault (none.go 204-206): returns the default. -/
def OrElseDefault {T : Type} (d : T) : T := d

/-- None.FailIfEmpty (none.go 216-220, lazy version): run fn under Do
and wrap the error it returns with Failed. -/
def FailIfEmpty {T : Type} (fn : Comp GoError) : Maybe T :=
  Do (fn.map (fun e => Failed e))

/-- Modelled from the spec: None.MapIfEmpty, the recovery out of the
absent state.  Only the interface documentation (unnamed part_007
182-228) is in the sources; the spec states: invoke f under the Fault
Guard; (v, no-error) gives Present(v); (_, err) gives Failed(err);
fault gives Failed.  That is exactly Try applied to fn. -/
def MapIfEmpty {T : Type} (fn : Comp (T × GoError)) : Maybe T :=
  Try fn

/-- None.MatchThen (none.go 232-237): run noneFn under Do, then return
self.  The other two callbacks are unused. -/
def MatchThen {T : Type} (someFn : T → Comp Unit) (noneFn : Comp Unit)
    (failureFn : GoError → Comp Unit) : Maybe T :=
  Do (noneFn.map (fun _ => Maybe.none))

end None

namespace Failure

/-- Failure.Map (failure.go 20-22): returns self, fn is never
called. -/
def Map {T : Type} (e : GoError) (fn : T → Comp T) : Maybe T :=
  Maybe.failure e

/-- Failure.FlatMap (failure.go 78-80): returns self, fn is never
called. -/
def FlatMap {T : Type} (e : GoError) (fn : T → Comp (Maybe T)) : Maybe T :=
  Maybe.failure e

/-- Failure.Filter (failure.go 90-92): returns self, fn is never
called. -/
def Filter {T : Type} (e : GoError) (fn : T → Comp Bool) : Maybe T :=
  Maybe.failure e

/-- Failure.Then (failure.go 102-104): returns self, fn is never
called. -/
def Then {T : Type} (e : GoError) (fn : T → Comp Unit) : Maybe T :=
  Maybe.failure e

/-- Failure.MapIfEmpty (failure.go 33-35): returns self unchanged, fn
is never called. -/
def MapIfEmpty {T : Type} (e : GoError) (fn : Comp (T × GoError)) : Maybe T :=
  Maybe.failure e

/-- Failure.MapIfFailed (failure.go 62-66): run fn on the held error
through Try, so its (value, error) pair is converted with panic
recovery. -/
def MapIfFailed {T : Type} (e : GoError)
    (fn : GoError → Comp (T × GoError)) : Maybe T :=
  Try (fn e)

/-- Failure.GetPair (failure.go 113-116): zero value and the held
error. -/
def GetPair (T : Type) [Inhabited T] (e : GoError) : T × GoError :=
  ((default : T), e)

/-- Modelled from the spec: the Failure variant of the three-value
extraction Get() (T, bool, error).  The implementation file of this
latest revision of failure.go is missing from the sources; the README
(unnamed part_004) declares the signature and the spec states
Failed(e).extract() = (zero-value, presentFlag=false, error=heldError). -/
def Get (T : Type) [Inhabited T] (e : GoError) : T × Bool × GoError :=
  ((default : T), false, e)

/-- Failure.OrElseGet (failure.go 129-131): calls fn with the held
error and returns its result directly, with no panic recovery around
it. -/
def OrElseGet {T : Type} (e : GoError) (fn : GoError → Comp T) : Comp T :=
  fn e

/-- Failure.OrElseDefault (failure.go 140-142): returns the default. -/
def OrElseDefault {T : Type} (e : GoError) (d : T) : T := d

/-- Failure.FailIfEmpty (failure.go 265-267, lazy version): returns
self with the original error, fn is never called. -/
def FailIfEmpty {T : Type} (e : GoError) (fn : Comp GoError) : Maybe T :=
  Maybe.failure e

/-- Failure.MatchThen (failure.go 153-158): run failureFn on the held
error under Do, then return self.  The other two callbacks are
unused. -/
def MatchThen {T : Type} (e : GoError) (someFn : T → Comp Unit)
    (noneFn : Comp Unit) (failureFn : GoError → Comp Unit) : Maybe T :=
  Do ((failureFn e).map (fun _ => Maybe.failure e))

end Failure

/-- MapH embeds the type-changing helper Map (helper.go 173-188): it
dispatches on the variant of the input container through MatchThen,
assigning the output inside the callbacks: for Some it runs
Do(Just(fn v)), for None it returns EmptyM at the result type, for
Failure it returns Failed at the result type with the held error.  The
Go name Map is taken by the method embeddings above. -/
def MapH {T R : Type} (m : Maybe T) (fn : T → Comp R) : Maybe R :=
  match m with
  | .some v => Do ((fn v).map (fun r => Just r))
  | .none => EmptyM R
  | .failure e => Failed e

/-- FlatMapH embeds the type-changing helper FlatMap (helper.go
247-262): same dispatch as MapH, except the Some case returns the
container fn produces, guarded by Do. -/
def FlatMapH {T R : Type} (m : Maybe T) (fn : T → Comp (Maybe R)) : Maybe R :=
  match m with
  | .some v => Do (fn v)
  | .none => EmptyM R
  | .failure e => Failed e


/-- Claim C1: if a caller-supplied callback raises a runtime fault
during transform, flatTransform, filter, sideEffect, match or
recovery, the operation returns a Failed container and the fault does
not propagate past the operation; the error equals the raised value
when that value is already an error, and otherwise is an error whose
message equals the raised value display text. -/
theorem C1_fault_absorption {T : Type} (v : T) (p : PanicVal) (s : String) (er : Err)
    (fnT : T → Comp T) (fnM : T → Comp (Maybe T)) (fnB : T → Comp Bool)
    (fnU : T → Comp Unit) (noneFn : Comp Unit)
    (failFn : GoError → Comp Unit) (recA : Comp GoError)
    (recF : GoError → Comp (T × GoError)) (e : GoError)
    (hT : fnT v = Comp.panics p) (hM : fnM v = Comp.panics p)
    (hB : fnB v = Comp.panics p) (hU : fnU v = Comp.panics p)
    (hN : noneFn = Comp.panics p) (hF : failFn e = Comp.panics p)
    (hA : recA = Comp.panics p) (hR : recF e = Comp.panics p) :
    Some.Map v fnT = Maybe.failure (Option.some (recoverAsErr p)) ∧
    Some.FlatMap v fnM = Maybe.failure (Option.some (recoverAsErr p)) ∧
    Some.Filter v fnB = Maybe.failure (Option.some (recoverAsErr p)) ∧
    Some.Then v fnU = Maybe.failure (Option.some (recoverAsErr p)) ∧
    Some.MatchThen v fnU noneFn failFn = Maybe.failure (Option.some (recoverAsErr p)) ∧
    None.MatchThen fnU noneFn failFn = (Maybe.failure (Option.some (recoverAsErr p)) : Maybe T) ∧
    None.FailIfEmpty (T := T) recA = Maybe.failure (Option.some (recoverAsErr p)) ∧
    Failure.MatchThen e fnU noneFn failFn = (Maybe.failure (Option.some (recoverAsErr p)) : Maybe T) ∧
    Failure.MapIfFailed e recF = Maybe.failure (Option.some (recoverAsErr p)) ∧
    recoverAsErr (PanicVal.errVal er) = er ∧
    (recoverAsErr (PanicVal.other s)).msg = s := by
  refine ⟨?_, ?_, ?_, ?_, ?_, ?_, ?_, ?_, ?_, rfl, rfl⟩ <;>
    simp [Some.Map, Some.FlatMap, Some.Filter, Some.Then, Some.MatchThen,
      None.MatchThen, None.FailIfEmpty, Failure.MatchThen, Failure.MapIfFailed,
      Try, Do, Comp.map, Failed, hT, hM, hB, hU, hN, hF, hA, hR]

/-- Witness for C1 at concrete inputs over Nat with a string panic
payload. -/
theorem C1_fault_absorption_witness :
    Some.Map 3 (fun _ : Nat => Comp.panics (PanicVal.other "boom")) =
      Maybe.failure (Option.some { msg := "boom" }) := by
  have h := C1_fault_absorption 3 (PanicVal.other "boom") "boom" { msg := "boom" }
    (fun _ : Nat => Comp.panics (PanicVal.other "boom"))
    (fun _ => Comp.panics (PanicVal.other "boom"))
    (fun _ => Comp.panics (PanicVal.other "boom"))
    (fun _ => Comp.panics (PanicVal.other "boom"))
    (Comp.panics (PanicVal.other "boom"))
    (fun _ => Comp.panics (PanicVal.other "boom"))
    (Comp.panics (PanicVal.other "boom"))
    (fun _ => Comp.panics (PanicVal.other "boom"))
    Option.none rfl rfl rfl rfl rfl rfl rfl rfl
  exact h.1

/-- Claim C2: on Absent and Failed containers, transform,
flatTransform, filter and sideEffect never invoke the callback and
return a container with the same state tag; for Failed the identical
error is carried.  The equations hold for every callback, including
panicking ones, so the callback is observably never run. -/
theorem C2_noop_persistence {T : Type} (e : GoError)
    (fnT : T → Comp T) (fnM : T → Comp (Maybe T))
    (fnB : T → Comp Bool) (fnU : T → Comp Unit) :
    None.Map fnT = (Maybe.none : Maybe T) ∧
    None.FlatMap fnM = (Maybe.none : Maybe T) ∧
    None.Filter fnB = (Maybe.none : Maybe T) ∧
    None.Then fnU = (Maybe.none : Maybe T) ∧
    Failure.Map e fnT = Maybe.failure e ∧
    Failure.FlatMap e fnM = Maybe.failure e ∧
    Failure.Filter e fnB = Maybe.failure e ∧
    Failure.Then e fnU = Maybe.failure e :=
  ⟨rfl, rfl, rfl, rfl, rfl, rfl, rfl, rfl⟩

/-- Witness for C2 at concrete inputs over Nat with panicking
callbacks. -/
theorem C2_noop_persistence_witness :
    Failure.Map (Option.some { msg := "first" })
      (fun _ : Nat => Comp.panics (PanicVal.other "late")) =
      Maybe.failure (Option.some { msg := "first" }) :=
  (C2_noop_persistence (Option.some { msg := "first" })
    (fun _ : Nat => Comp.panics (PanicVal.other "late"))
    (fun _ => Comp.panics (PanicVal.other "late"))
    (fun _ => Comp.panics (PanicVal.other "late"))
    (fun _ => Comp.panics (PanicVal.other "late"))).2.2.2.2.1

/-- Claim C3: extraction yields exactly (v, true, no error) on
Present(v), (zero value, false, no error) on Absent and (zero value,
false, e) on Failed(e). -/
theorem C3_extraction {T : Type} [Inhabited T] (v : T) (e : GoError) :
    Some.Get v = (v, true, Option.none) ∧
    None.Get T = ((default : T), false, Option.none) ∧
    Failure.Get T e = ((default : T), false, e) :=
  ⟨rfl, rfl, rfl⟩

/-- Witness for C3 over Nat, whose zero value is 0. -/
theorem C3_extraction_witness :
    Some.Get 5 = (5, true, (Option.none : GoError)) ∧
    None.Get Nat = (0, false, (Option.none : GoError)) ∧
    Failure.Get Nat (Option.some { msg := "e" }) =
      (0, false, Option.some { msg := "e" }) :=
  C3_extraction 5 (Option.some { msg := "e" })

/-- Claim C4: Present(v).filter(p) returns Present(v) unchanged when
p(v) is true, Absent when p(v) is false, and Failed when p raises a
fault. -/
theorem C4_filter_law {T : Type} (v : T) (fn : T → Comp Bool) (p : PanicVal) :
    (fn v = Comp.ok true → Some.Filter v fn = Maybe.some v) ∧
    (fn v = Comp.ok false → Some.Filter v fn = Maybe.none) ∧
    (fn v = Comp.panics p →
      Some.Filter v fn = Maybe.failure (Option.some (recoverAsErr p))) := by
  refine ⟨fun h => ?_, fun h => ?_, fun h => ?_⟩ <;>
    simp [Some.Filter, Do, Comp.map, Failed, h]

/-- Witness for C4 at value 5 over Nat with a passing predicate, a
failing predicate and a panicking predicate. -/
theorem C4_filter_law_witness :
    Some.Filter 5 (fun _ : Nat => Comp.ok true) = Maybe.some 5 ∧
    Some.Filter 5 (fun _ : Nat => Comp.ok false) = Maybe.none ∧
    Some.Filter 5 (fun _ : Nat => Comp.panics (PanicVal.other "boom")) =
      Maybe.failure (Option.some { msg := "boom" }) :=
  ⟨(C4_filter_law 5 (fun _ : Nat => Comp.ok true) (PanicVal.other "boom")).1 rfl,
   (C4_filter_law 5 (fun _ : Nat => Comp.ok false) (PanicVal.other "boom")).2.1 rfl,
   (C4_filter_law 5 (fun _ : Nat => Comp.panics (PanicVal.other "boom"))
     (PanicVal.other "boom")).2.2 rfl⟩

/-- Claim C5: recovery laws.  Absent recovered by a function returning
(v, no error) yields Present(v) and by one returning (_, e) yields
Failed(e); Failed(e) recovered through recoverFromFailure behaves the
same with the new pair; in both operations the function runs under the
Fault Guard and a fault yields Failed. -/
theorem C5_recovery_laws {T : Type} (v : T) (e2 : Err) (e0 : GoError) (p : PanicVal)
    (fnA : Comp (T × GoError)) (fnF : GoError → Comp (T × GoError)) :
    (fnA = Comp.ok (v, Option.none) → None.MapIfEmpty fnA = Maybe.some v) ∧
    (fnA = Comp.ok (v, Option.some e2) →
      None.MapIfEmpty fnA = Maybe.failure (Option.some e2)) ∧
    (fnA = Comp.panics p →
      None.MapIfEmpty fnA = Maybe.failure (Option.some (recoverAsErr p))) ∧
    (fnF e0 = Comp.ok (v, Option.none) → Failure.MapIfFailed e0 fnF = Maybe.some v) ∧
    (fnF e0 = Comp.ok (v, Option.some e2) →
      Failure.MapIfFailed e0 fnF = Maybe.failure (Option.some e2)) ∧
    (fnF e0 = Comp.panics p →
      Failure.MapIfFailed e0 fnF = Maybe.failure (Option.some (recoverAsErr p))) := by
  refine ⟨fun h => ?_, fun h => ?_, fun h => ?_, fun h => ?_, fun h => ?_, fun h => ?_⟩ <;>
    simp [None.MapIfEmpty, Failure.MapIfFailed, Try, Do, Comp.map, ToMaybe,
      Failed, Just, h]

/-- Witness for C5 over Nat: recovery to a value, recovery to an
error, and a panicking recovery, from both Absent and Failed. -/
theorem C5_recovery_laws_witness :
    None.MapIfEmpty (Comp.ok ((7 : Nat), (Option.none : GoError))) = Maybe.some 7 ∧
    None.MapIfEmpty (Comp.ok ((7 : Nat), Option.some { msg := "e" })) =
      Maybe.failure (Option.some { msg := "e" }) ∧
    Failure.MapIfFailed (Option.some { msg := "old" })
      (fun _ => Comp.ok ((7 : Nat), Option.some { msg := "e" })) =
      Maybe.failure (Option.some { msg := "e" }) :=
  ⟨(C5_recovery_laws 7 { msg := "e" } Option.none (PanicVal.other "x")
      (Comp.ok ((7 : Nat), (Option.none : GoError)))
      (fun _ => Comp.ok ((7 : Nat), Option.none))).1 rfl,
   (C5_recovery_laws 7 { msg := "e" } Option.none (PanicVal.other "x")
      (Comp.ok ((7 : Nat), Option.some { msg := "e" }))
      (fun _ => Comp.ok ((7 : Nat), Option.none))).2.1 rfl,
   (C5_recovery_laws 7 { msg := "e" } (Option.some { msg := "old" })
      (PanicVal.other "x") (Comp.panics (PanicVal.other "x"))
      (fun _ => Comp.ok ((7 : Nat), Option.some { msg := "e" }))).2.2.2.2.1 rfl⟩

/-- Claim C6: the type-changing adapter Map (embedded as MapH) is a
homomorphism on constructors: Present(v) goes to Present(f v), or
Failed if f faults; Absent goes to Absent at the result type;
Failed(e) goes to Failed(e) at the result type with the same error;
f is never invoked in the Absent and Failed cases, which the equations
express by holding for every callback. -/
theorem C6_map_across {T R : Type} (v : T) (r : R) (e : GoError) (p : PanicVal)
    (fn : T → Comp R) :
    (fn v = Comp.ok r → MapH (Maybe.some v) fn = Maybe.some r) ∧
    (fn v = Comp.panics p →
      MapH (Maybe.some v) fn = Maybe.failure (Option.some (recoverAsErr p))) ∧
    MapH (Maybe.none : Maybe T) fn = (Maybe.none : Maybe R) ∧
    MapH (Maybe.failure e : Maybe T) fn = (Maybe.failure e : Maybe R) := by
  refine ⟨fun h => ?_, fun h => ?_, rfl, rfl⟩ <;>
    simp [MapH, Do, Comp.map, Just, Failed, h]

/-- Witness for C6 converting Nat to Bool at concrete inputs. -/
theorem C6_map_across_witness :
    MapH (Maybe.some 4) (fun x : Nat => Comp.ok (decide (x = 4))) = Maybe.some true ∧
    MapH (Maybe.none : Maybe Nat) (fun x : Nat => Comp.ok (decide (x = 4))) =
      (Maybe.none : Maybe Bool) ∧
    MapH (Maybe.failure (Option.some { msg := "e" }) : Maybe Nat)
      (fun x : Nat => Comp.ok (decide (x = 4))) =
      (Maybe.failure (Option.some { msg := "e" }) : Maybe Bool) :=
  ⟨(C6_map_across 4 true (Option.some { msg := "e" }) (PanicVal.other "x")
      (fun x : Nat => Comp.ok (decide (x = 4)))).1 rfl,
   (C6_map_across 4 true (Option.some { msg := "e" }) (PanicVal.other "x")
      (fun x : Nat => Comp.ok (decide (x = 4)))).2.2.1,
   (C6_map_across 4 true (Option.some { msg := "e" }) (PanicVal.other "x")
      (fun x : Nat => Comp.ok (decide (x = 4)))).2.2.2⟩

/-- Claim C7: fromPair (ToMaybe) returns Failed(e) when the error is
present and Present(v) otherwise; tryCompute (Try) runs the function
under the Fault Guard and applies ToMaybe to its result; in particular
a computation that panics with the string boom yields Failed carrying
an error whose message is boom. -/
theorem C7_pair_bridges {T : Type} (v : T) (er : Err) (e : GoError) (p : PanicVal) :
    ToMaybe v (Option.some er) = Maybe.failure (Option.some er) ∧
    ToMaybe v Option.none = Maybe.some v ∧
    Try (Comp.ok (v, e)) = ToMaybe v e ∧
    Try (Comp.panics p : Comp (T × GoError)) =
      Maybe.failure (Option.some (recoverAsErr p)) ∧
    Try (Comp.panics (PanicVal.other "boom") : Comp (T × GoError)) =
      Maybe.failure (Option.some { msg := "boom" }) :=
  ⟨rfl, rfl, rfl, rfl, rfl⟩

/-- Witness for C7 over Nat at concrete inputs. -/
theorem C7_pair_bridges_witness :
    ToMaybe 9 (Option.some { msg := "e" }) =
      Maybe.failure (Option.some { msg := "e" }) ∧
    ToMaybe 9 Option.none = Maybe.some 9 ∧
    Try (Comp.panics (PanicVal.other "boom") : Comp (Nat × GoError)) =
      Maybe.failure (Option.some { msg := "boom" }) :=
  ⟨(C7_pair_bridges 9 { msg := "e" } Option.none (PanicVal.other "boom")).1,
   (C7_pair_bridges 9 { msg := "e" } Option.none (PanicVal.other "boom")).2.1,
   (C7_pair_bridges 9 { msg := "e" } Option.none (PanicVal.other "boom")).2.2.2.2⟩

/-- Claim C8: MatchThen invokes exactly the callback matching the
container state under the Fault Guard and then returns self: the value
callback on Some, the empty callback on None, the error callback on
Failed, each returning the original container on normal completion and
a Failed container when the matching callback panics; the result never
depends on the two callbacks that do not match the state. -/
theorem C8_match_dispatch {T : Type} (v : T) (e : GoError) (p : PanicVal)
    (someFn someFn2 : T → Comp Unit) (noneFn noneFn2 : Comp Unit)
    (failFn failFn2 : GoError → Comp Unit) :
    (someFn v = Comp.ok () → Some.MatchThen v someFn noneFn failFn = Maybe.some v) ∧
    (someFn v = Comp.panics p →
      Some.MatchThen v someFn noneFn failFn =
        Maybe.failure (Option.some (recoverAsErr p))) ∧
    Some.MatchThen v someFn noneFn failFn =
      Some.MatchThen v someFn noneFn2 failFn2 ∧
    (noneFn = Comp.ok () →
      None.MatchThen someFn noneFn failFn = (Maybe.none : Maybe T)) ∧
    (noneFn = Comp.panics p →
      None.MatchThen someFn noneFn failFn =
        (Maybe.failure (Option.some (recoverAsErr p)) : Maybe T)) ∧
    None.MatchThen (T := T) someFn noneFn failFn =
      None.MatchThen someFn2 noneFn failFn2 ∧
    (failFn e = Comp.ok () →
      Failure.MatchThen e someFn noneFn failFn = (Maybe.failure e : Maybe T)) ∧
    (failFn e = Comp.panics p →
      Failure.MatchThen e someFn noneFn failFn =
        (Maybe.failure (Option.some (recoverAsErr p)) : Maybe T)) ∧
    Failure.MatchThen (T := T) e someFn noneFn failFn =
      Failure.MatchThen e someFn2 noneFn2 failFn := by
  refine ⟨fun h => ?_, fun h => ?_, rfl, fun h => ?_, fun h => ?_, rfl,
    fun h => ?_, fun h => ?_, rfl⟩ <;>
    simp [Some.MatchThen, None.MatchThen, Failure.MatchThen, Do, Comp.map,
      Failed, h]

/-- Witness for C8 over Nat with completing callbacks. -/
theorem C8_match_dispatch_witness :
    Some.MatchThen 2 (fun _ : Nat => Comp.ok ()) (Comp.ok ())
      (fun _ => Comp.ok ()) = Maybe.some 2 ∧
    None.MatchThen (fun _ : Nat => Comp.ok ()) (Comp.ok ())
      (fun _ => Comp.ok ()) = (Maybe.none : Maybe Nat) ∧
    Failure.MatchThen (Option.some { msg := "e" }) (fun _ : Nat => Comp.ok ())
      (Comp.ok ()) (fun _ => Comp.ok ()) =
      (Maybe.failure (Option.some { msg := "e" }) : Maybe Nat) :=
  ⟨(C8_match_dispatch 2 (Option.some { msg := "e" }) (PanicVal.other "x")
      (fun _ : Nat => Comp.ok ()) (fun _ => Comp.ok ()) (Comp.ok ())
      (Comp.ok ()) (fun _ => Comp.ok ()) (fun _ => Comp.ok ())).1 rfl,
   (C8_match_dispatch 2 (Option.some { msg := "e" }) (PanicVal.other "x")
      (fun _ : Nat => Comp.ok ()) (fun _ => Comp.ok ()) (Comp.ok ())
      (Comp.ok ()) (fun _ => Comp.ok ()) (fun _ => Comp.ok ())).2.2.2.1 rfl,
   (C8_match_dispatch 2 (Option.some { msg := "e" }) (PanicVal.other "x")
      (fun _ : Nat => Comp.ok ()) (fun _ => Comp.ok ()) (Comp.ok ())
      (Comp.ok ()) (fun _ => Comp.ok ()) (fun _ => Comp.ok ())).2.2.2.2.2.2.1 rfl⟩

/-- Claim C9 (implicit): the OrElseGet callback is not run under the
Fault Guard: on None and Failure a panic inside it remains a panic of
the whole call, visible to the caller, whereas the guarded callbacks
of the same containers (here MatchThen) turn a panic into a Failed
container. -/
theorem C9_orelseget_unguarded {T : Type} (e : GoError) (p : PanicVal)
    (fn : GoError → Comp T) (someFn : T → Comp Unit) (noneFn : Comp Unit)
    (failFn : GoError → Comp Unit) :
    (fn Option.none = Comp.panics p → None.OrElseGet fn = Comp.panics p) ∧
    (fn e = Comp.panics p → Failure.OrElseGet e fn = Comp.panics p) ∧
    (noneFn = Comp.panics p →
      None.MatchThen someFn noneFn failFn =
        (Maybe.failure (Option.some (recoverAsErr p)) : Maybe T)) ∧
    (failFn e = Comp.panics p →
      Failure.MatchThen e someFn noneFn failFn =
        (Maybe.failure (Option.some (recoverAsErr p)) : Maybe T)) := by
  refine ⟨fun h => ?_, fun h => ?_, fun h => ?_, fun h => ?_⟩ <;>
    simp [None.OrElseGet, Failure.OrElseGet, None.MatchThen, Failure.MatchThen,
      Do, Comp.map, Failed, h]

/-- Witness for C9 over Nat with a panicking callback. -/
theorem C9_orelseget_unguarded_witness :
    None.OrElseGet (fun _ => (Comp.panics (PanicVal.other "boom") : Comp Nat)) =
      Comp.panics (PanicVal.other "boom") ∧
    Failure.OrElseGet (Option.some { msg := "e" })
      (fun _ => (Comp.panics (PanicVal.other "boom") : Comp Nat)) =
      Comp.panics (PanicVal.other "boom") :=
  ⟨(C9_orelseget_unguarded (Option.some { msg := "e" }) (PanicVal.other "boom")
      (fun _ => (Comp.panics (PanicVal.other "boom") : Comp Nat))
      (fun _ => Comp.ok ()) (Comp.ok ()) (fun _ => Comp.ok ())).1 rfl,
   (C9_orelseget_unguarded (Option.some { msg := "e" }) (PanicVal.other "boom")
      (fun _ => (Comp.panics (PanicVal.other "boom") : Comp Nat))
      (fun _ => Comp.ok ()) (Comp.ok ()) (fun _ => Comp.ok ())).2.1 rfl⟩

/-- Claim C10 (implicit): on an Absent container the lazy FailIfEmpty
applied to a function returning a nil error produces a Failure whose
held error is nil; extraction from that container reports no error,
the same pair that Absent extraction reports, even though the state
tag, Failed, differs from Absent. -/
theorem C10_failifempty_nil_error (T : Type) [Inhabited T] :
    None.FailIfEmpty (T := T) (Comp.ok Option.none) = Maybe.failure Option.none ∧
    Failure.GetPair T Option.none = None.GetPair T ∧
    Failure.GetPair T Option.none = ((default : T), Option.none) ∧
    (Maybe.failure Option.none : Maybe T) ≠ Maybe.none :=
  ⟨rfl, rfl, rfl, fun h => Maybe.noConfusion h⟩

/-- Witness for C10 over Nat. -/
theorem C10_failifempty_nil_error_witness :
    None.FailIfEmpty (T := Nat) (Comp.ok Option.none) =
      Maybe.failure Option.none ∧
    Failure.GetPair Nat Option.none = None.GetPair Nat :=
  ⟨(C10_failifempty_nil_error Nat).1, (C10_failifempty_nil_error Nat).2.1⟩

end maybe
